import Mathlib

/-!
Shallow embedding of the reqwest-auth middleware (src/lib.rs) and proofs of
its specification claims.

The repository consists of a single middleware, `AuthorizationHeaderMiddleware`,
whose `handle` method

  1. awaits `self.ts.token()` and on error returns
     `Error::Middleware(anyhow!(e.to_string()))`;
  2. builds a `HeaderValue` via `HeaderValue::from_str(auth_token.as_str())`
     and on error returns
     `Error::Middleware(anyhow!(format!("Invalid auth token value: {e}")))`;
  3. inserts the header value under `AUTHORIZATION` into the request header
     map (http crate `HeaderMap::insert`: all previous values for the key are
     removed and the single new value is associated with the key);
  4. returns `next.run(req, extensions).await` verbatim.

Embedding choices:
  - A credential string is modelled by the list of its UTF-8 byte values
    (`ByteStr`), because `HeaderValue::from_str` validates the bytes of the
    string.  A byte of a multi-byte UTF-8 character is `≥ 0x80` and is always
    a valid header-value byte, so the byte-level model is exact.
  - The token source call for one invocation of `handle` is modelled by the
    `Except String ByteStr` value it resolves to (the `String` is the message
    produced by `e.to_string()`); `TokenSource::token` takes `&self`, so the
    source itself is never mutated and a call is fully described by its
    result.  A whole source is modelled as a function from the call index to
    that result.
  - `handle` itself is a pure function returning a `HandleOutcome`: the value
    of the returned `Result`, the final state of the `extensions` side
    channel, the request handed to `next` (`none` when `next` was never
    invoked), and `reqFinal`, the value of the owned request at the moment
    `handle` stops running its own code — the untouched input request on the
    two early-return paths (the `?` operator returns before
    `headers_mut().insert` runs) and the mutated request on the forwarding
    path.
-/

namespace ReqwestAuth

/-- The bytes of a Rust string (UTF-8 code units, each `< 256`). -/
abbrev ByteStr := List Nat

/-- A header name (http crate header names are lowercase ASCII strings). -/
abbrev HeaderName := String

/-- The constant `http::header::AUTHORIZATION`, whose canonical textual form
is "authorization". -/
def AUTHORIZATION : HeaderName := "authorization"

/-- `http::HeaderMap` seen as a multimap: the ordered list of its
(name, value) entries.  A name may occur several times (multi-valued
header). -/
abbrev HeaderMap := List (HeaderName × ByteStr)

/-- `HeaderMap::insert(k, v)`: all previous values associated with `k` are
removed and the single value `v` is associated with `k`.  Entries of other
names are untouched. -/
def HeaderMap.insert (m : HeaderMap) (k : HeaderName) (v : ByteStr) : HeaderMap :=
  (m.filter fun p => p.1 != k) ++ [(k, v)]

/-- `HeaderMap::get_all(k)`: the list of values associated with name `k`,
in order. -/
def HeaderMap.getAll (m : HeaderMap) (k : HeaderName) : List ByteStr :=
  (m.filter fun p => p.1 == k).map fun p => p.2

namespace HeaderValue

/-- Validity of one byte of a header value, from the http crate
(`HeaderValue`): `b >= 32 && b != 127 || b == b\x27\t\x27`. -/
def is_valid (b : Nat) : Bool :=
  32 ≤ b && b != 127 || b == 9

/-- `HeaderValue::from_str`: succeeds with the bytes of the string iff every
byte is valid; otherwise fails with `InvalidHeaderValue`, whose `Display`
form is the fixed text "failed to parse header value". -/
def from_str (s : ByteStr) : Except String ByteStr :=
  if s.all is_valid then .ok s else .error "failed to parse header value"

end HeaderValue

/-- `reqwest::Request`: its header map plus the remaining fields, which the
middleware never touches. -/
structure Request where
  method : String
  url : String
  headers : HeaderMap
  body : Option ByteStr
  version : String
deriving Repr, DecidableEq

/-- `reqwest_middleware::Error`: either a middleware-produced error carrying
a message (the `anyhow::Error` is modelled by its message text) or an error
bubbled up from reqwest itself. -/
inductive Error where
  | middleware (msg : String)
  | reqwest (msg : String)
deriving Repr, DecidableEq

/-- The observable outcome of one `handle` call.  `sentToNext` is the request
value handed to `next.run` (`none` when `next` was never invoked);
`reqFinal` is the value of the owned request when `handle` stops executing
its own code. -/
structure HandleOutcome (Resp Ext : Type) where
  result : Except Error Resp
  extensions : Ext
  sentToNext : Option Request
  reqFinal : Request
deriving Repr

/-- `AuthorizationHeaderMiddleware::handle` for one invocation.
`tokenResult` is the value `self.ts.token().await` resolves to for this call;
`next` is the continuation `next.run`, a function of the request and the
`extensions` side channel. -/
def handle {Resp Ext : Type} (tokenResult : Except String ByteStr) (req : Request)
    (extensions : Ext) (next : Request → Ext → Except Error Resp × Ext) :
    HandleOutcome Resp Ext :=
  match tokenResult with
  | .error e =>
      { result := .error (.middleware e), extensions := extensions,
        sentToNext := none, reqFinal := req }
  | .ok auth_token =>
      match HeaderValue.from_str auth_token with
      | .error e =>
          { result := .error (.middleware ("Invalid auth token value: " ++ e)),
            extensions := extensions, sentToNext := none, reqFinal := req }
      | .ok hv =>
          let req' : Request := { req with headers := req.headers.insert AUTHORIZATION hv }
          let r := next req' extensions
          { result := r.1, extensions := r.2, sentToNext := some req', reqFinal := req' }

/-- `AuthorizationHeaderMiddleware`: holds one shared handle to a token
source (`Arc<dyn TokenSource>`), modelled by the function from call index to
the result of that call of `token()`. -/
structure AuthorizationHeaderMiddleware where
  ts : Nat → Except String ByteStr

/-- `impl From<Arc<dyn TokenSource>>`: adopt an already shared handle. -/
def fromArc (ts : Nat → Except String ByteStr) : AuthorizationHeaderMiddleware :=
  { ts := ts }

/-- `Arc::from(Box<dyn TokenSource>)` (the `ts.into()` in the source): moving
a uniquely owned source into a shared handle keeps the underlying source,
hence the same call-by-call behaviour. -/
def boxIntoArc (ts : Nat → Except String ByteStr) : Nat → Except String ByteStr :=
  ts

/-- `impl From<Box<dyn TokenSource>>`: adopt a uniquely owned source by
converting it into a shared handle. -/
def fromBox (ts : Nat → Except String ByteStr) : AuthorizationHeaderMiddleware :=
  { ts := boxIntoArc ts }

/-- One invocation of `handle` on a middleware value: call number `i` of the
held token source supplies the fetch result. -/
def AuthorizationHeaderMiddleware.handleCall {Resp Ext : Type}
    (m : AuthorizationHeaderMiddleware) (i : Nat) (req : Request) (extensions : Ext)
    (next : Request → Ext → Except Error Resp × Ext) : HandleOutcome Resp Ext :=
  handle (m.ts i) req extensions next

/- Helper lemmas about `HeaderMap.insert` / `HeaderMap.getAll`. -/

theorem filter_ne_filter_eq (m : HeaderMap) (k : HeaderName) :
    (m.filter fun p => p.1 != k).filter (fun p => p.1 == k) = [] := by
  induction m with
  | nil => rfl
  | cons a t ih =>
      by_cases h : a.1 = k
      · simp [List.filter_cons, h, ih]
      · simp [List.filter_cons, h, ih]

theorem getAll_insert_self (m : HeaderMap) (k : HeaderName) (v : ByteStr) :
    (m.insert k v).getAll k = [v] := by
  unfold HeaderMap.insert HeaderMap.getAll
  rw [List.filter_append, filter_ne_filter_eq]
  simp

theorem filter_ne_filter_other (m : HeaderMap) (k k' : HeaderName) (h : k' ≠ k) :
    (m.filter fun p => p.1 != k).filter (fun p => p.1 == k') =
      m.filter (fun p => p.1 == k') := by
  have hkk' : ¬ k = k' := fun hc => h hc.symm
  induction m with
  | nil => rfl
  | cons a t ih =>
      by_cases ha : a.1 = k
      · simp [List.filter_cons, ha, hkk', ih]
      · by_cases hb : a.1 = k'
        · simp [List.filter_cons, ha, hb, h, ih]
        · simp [List.filter_cons, ha, hb, ih]

theorem getAll_insert_other (m : HeaderMap) (k k' : HeaderName) (v : ByteStr)
    (h : k' ≠ k) : (m.insert k v).getAll k' = m.getAll k' := by
  unfold HeaderMap.insert HeaderMap.getAll
  rw [List.filter_append, filter_ne_filter_other m k k' h]
  have hkk' : ¬ k = k' := fun hc => h hc.symm
  simp [hkk']

/- Concrete values used by the witnesses. -/

/-- A concrete request carrying a multi-valued pre-existing Authorization
header plus one unrelated header. -/
def reqEx : Request :=
  { method := "GET", url := "https://example.com/"
    headers := [(AUTHORIZATION, [120]), ("accept", [42]), (AUTHORIZATION, [121])]
    body := none, version := "HTTP/1.1" }

/-- A concrete downstream continuation returning a fixed success and bumping
the side channel. -/
def nextOk : Request → Nat → Except Error Nat × Nat :=
  fun _ e => (.ok 7, e + 1)

/-- A concrete downstream continuation failing with a fixed reqwest error. -/
def nextErr : Request → Nat → Except Error Nat × Nat :=
  fun _ e => (.error (.reqwest "boom"), e)

/-- C1: when the fetched credential is encodable as a header value, `handle`
hands `next` a request whose Authorization header holds exactly that
credential as its only value, any pre-existing value having been replaced. -/
theorem C1_header_overwrite {Resp Ext : Type} (tok : ByteStr) (req : Request)
    (ctx : Ext) (next : Request → Ext → Except Error Resp × Ext)
    (hvalid : tok.all HeaderValue.is_valid = true) :
    ∃ req', (handle (.ok tok) req ctx next).sentToNext = some req' ∧
      req'.headers.getAll AUTHORIZATION = [tok] ∧
      (req'.headers.getAll AUTHORIZATION).length = 1 := by
  refine ⟨{ req with headers := req.headers.insert AUTHORIZATION tok }, ?_, ?_, ?_⟩
  · simp [handle, HeaderValue.from_str, hvalid]
  · exact getAll_insert_self req.headers AUTHORIZATION tok
  · rw [getAll_insert_self]
    rfl

/-- Witness for C1 at the concrete token "Ba" (bytes 66, 97) and a request
that already carries two Authorization values. -/
theorem C1_header_overwrite_witness :
    ([66, 97] : ByteStr).all HeaderValue.is_valid = true ∧
    ∃ req', (handle (.ok [66, 97]) reqEx 0 nextOk).sentToNext = some req' ∧
      req'.headers.getAll AUTHORIZATION = [[66, 97]] ∧
      (req'.headers.getAll AUTHORIZATION).length = 1 :=
  ⟨by decide, C1_header_overwrite [66, 97] reqEx 0 nextOk (by decide)⟩

/-- C2: when the token source fails, `handle` returns a Middleware error
carrying the source message, hands nothing to `next`, and its whole outcome
does not depend on `next` at all, so the continuation is never invoked. -/
theorem C2_fetch_failure_short_circuits {Resp Ext : Type} (msg : String) (req : Request)
    (ctx : Ext) (next next₂ : Request → Ext → Except Error Resp × Ext) :
    (handle (.error msg) req ctx next).result = .error (.middleware msg) ∧
    (handle (.error msg) req ctx next).sentToNext = none ∧
    handle (.error msg) req ctx next = handle (.error msg) req ctx next₂ :=
  ⟨rfl, rfl, rfl⟩

/-- C3: when the fetched credential contains a byte that is illegal in a
header value, `handle` returns a Middleware error whose message is the fixed
"Invalid auth token value: " prefix followed by the formatting error detail,
hands nothing to `next`, and its outcome does not depend on `next`. -/
theorem C3_invalid_credential_rejected {Resp Ext : Type} (tok : ByteStr) (req : Request)
    (ctx : Ext) (next next₂ : Request → Ext → Except Error Resp × Ext)
    (hbad : tok.all HeaderValue.is_valid = false) :
    (handle (.ok tok) req ctx next).result =
      .error (.middleware ("Invalid auth token value: " ++ "failed to parse header value")) ∧
    (handle (.ok tok) req ctx next).sentToNext = none ∧
    handle (.ok tok) req ctx next = handle (.ok tok) req ctx next₂ := by
  refine ⟨?_, ?_, ?_⟩ <;> simp [handle, HeaderValue.from_str, hbad]

/-- Witness for C3 at a credential containing a raw newline (byte 10). -/
theorem C3_invalid_credential_rejected_witness :
    ([10] : ByteStr).all HeaderValue.is_valid = false ∧
    ((handle (.ok [10]) reqEx 0 nextOk).result =
      .error (.middleware ("Invalid auth token value: " ++ "failed to parse header value")) ∧
    (handle (.ok [10]) reqEx 0 nextOk).sentToNext = none ∧
    handle (.ok [10]) reqEx 0 nextOk = handle (.ok [10]) reqEx 0 nextErr) :=
  ⟨by decide, C3_invalid_credential_rejected [10] reqEx 0 nextOk nextErr (by decide)⟩

/-- C4: when fetch and apply succeed, the overall result and the final state
of the extensions side channel are exactly what `next` returns on the
mutated request and the untouched context — success or error, with no
rewrapping. -/
theorem C4_downstream_passthrough {Resp Ext : Type} (tok : ByteStr) (req : Request)
    (ctx : Ext) (next : Request → Ext → Except Error Resp × Ext)
    (hvalid : tok.all HeaderValue.is_valid = true) :
    ∃ req', (handle (.ok tok) req ctx next).sentToNext = some req' ∧
      (handle (.ok tok) req ctx next).result = (next req' ctx).1 ∧
      (handle (.ok tok) req ctx next).extensions = (next req' ctx).2 := by
  refine ⟨{ req with headers := req.headers.insert AUTHORIZATION tok }, ?_, ?_, ?_⟩ <;>
    simp [handle, HeaderValue.from_str, hvalid]

/-- Witness for C4 with a downstream stage that fails: the reqwest error
"boom" comes back verbatim. -/
theorem C4_downstream_passthrough_witness :
    ([65] : ByteStr).all HeaderValue.is_valid = true ∧
    ∃ req', (handle (.ok [65]) reqEx 0 nextErr).sentToNext = some req' ∧
      (handle (.ok [65]) reqEx 0 nextErr).result = (nextErr req' 0).1 ∧
      (handle (.ok [65]) reqEx 0 nextErr).extensions = (nextErr req' 0).2 :=
  ⟨by decide, C4_downstream_passthrough [65] reqEx 0 nextErr (by decide)⟩

/-- C5 counterexample: both local failures are surfaced through the same
variant `Error::Middleware`, so a fetch failure whose source message equals
the fixed invalid-format message yields an error value identical to the one
produced by an actual formatting failure (here a credential that is a raw
newline).  A caller receiving that error value cannot tell which of the two
failures occurred, refuting the claim that the two kinds are distinguishable. -/
theorem C5_kinds_counterexample :
    (@handle Nat Nat (.error "Invalid auth token value: failed to parse header value")
        reqEx 0 nextOk).result
      = (@handle Nat Nat (.ok [10]) reqEx 0 nextOk).result ∧
    (@handle Nat Nat (.ok [10]) reqEx 0 nextOk).result
      = .error (.middleware "Invalid auth token value: failed to parse header value") :=
  ⟨rfl, rfl⟩

/-- C5 (amended): both locally detected failures surface as the single
chain-level kind `Error::Middleware`, each carrying a human-readable message
derived from the underlying cause — the fetch failure carries the source
message verbatim, the formatting failure carries the fixed message prefixed
with "Invalid auth token value: " — but they are separate kinds only at the
message-text level, not as distinct error variants. -/
theorem C5_middleware_kind_messages {Resp Ext : Type} (msg : String) (tok : ByteStr)
    (req : Request) (ctx : Ext) (next : Request → Ext → Except Error Resp × Ext)
    (hbad : tok.all HeaderValue.is_valid = false) :
    (handle (.error msg) req ctx next).result = .error (.middleware msg) ∧
    (handle (.ok tok) req ctx next).result =
      .error (.middleware ("Invalid auth token value: " ++ "failed to parse header value")) := by
  refine ⟨rfl, ?_⟩
  simp [handle, HeaderValue.from_str, hbad]

/-- Witness for the amended C5 at a source message "network down" and a
credential containing a NUL byte. -/
theorem C5_middleware_kind_messages_witness :
    ([0] : ByteStr).all HeaderValue.is_valid = false ∧
    ((@handle Nat Nat (.error "network down") reqEx 0 nextOk).result =
      .error (.middleware "network down") ∧
    (@handle Nat Nat (.ok [0]) reqEx 0 nextOk).result =
      .error (.middleware ("Invalid auth token value: " ++ "failed to parse header value"))) :=
  ⟨by decide, C5_middleware_kind_messages "network down" [0] reqEx 0 nextOk (by decide)⟩

/-- C6: the middleware holds no mutable state, so two invocations each carry
exactly the credential fetched during their own call: call 0 yields a request
carrying the value of fetch 0, call 1 the value of fetch 1, and equal fetched
values give equal headers. -/
theorem C6_per_call_freshness {Resp Ext : Type} (ts : Nat → Except String ByteStr)
    (v1 v2 : ByteStr) (req1 req2 : Request) (ctx1 ctx2 : Ext)
    (next1 next2 : Request → Ext → Except Error Resp × Ext)
    (h1 : ts 0 = .ok v1) (h2 : ts 1 = .ok v2)
    (hv1 : v1.all HeaderValue.is_valid = true)
    (hv2 : v2.all HeaderValue.is_valid = true) :
    ∃ r1 r2,
      ((fromArc ts).handleCall 0 req1 ctx1 next1).sentToNext = some r1 ∧
      ((fromArc ts).handleCall 1 req2 ctx2 next2).sentToNext = some r2 ∧
      r1.headers.getAll AUTHORIZATION = [v1] ∧
      r2.headers.getAll AUTHORIZATION = [v2] ∧
      (v1 = v2 → r1.headers.getAll AUTHORIZATION = r2.headers.getAll AUTHORIZATION) := by
  refine ⟨{ req1 with headers := req1.headers.insert AUTHORIZATION v1 },
          { req2 with headers := req2.headers.insert AUTHORIZATION v2 },
          ?_, ?_, ?_, ?_, ?_⟩
  · simp [AuthorizationHeaderMiddleware.handleCall, fromArc, h1, handle,
      HeaderValue.from_str, hv1]
  · simp [AuthorizationHeaderMiddleware.handleCall, fromArc, h2, handle,
      HeaderValue.from_str, hv2]
  · exact getAll_insert_self req1.headers AUTHORIZATION v1
  · exact getAll_insert_self req2.headers AUTHORIZATION v2
  · intro hEq
    rw [getAll_insert_self, getAll_insert_self, hEq]

/-- A concrete call-dependent token source: fetch 0 yields byte 49 ("1"),
every later fetch yields byte 50 ("2"). -/
def tsEx : Nat → Except String ByteStr :=
  fun i => if i = 0 then .ok [49] else .ok [50]

/-- Witness for C6 on the call-dependent source `tsEx` and two requests. -/
theorem C6_per_call_freshness_witness :
    tsEx 0 = .ok [49] ∧ tsEx 1 = .ok [50] ∧
    ([49] : ByteStr).all HeaderValue.is_valid = true ∧
    ([50] : ByteStr).all HeaderValue.is_valid = true ∧
    ∃ r1 r2,
      ((fromArc tsEx).handleCall 0 reqEx 0 nextOk).sentToNext = some r1 ∧
      ((fromArc tsEx).handleCall 1 reqEx 0 nextOk).sentToNext = some r2 ∧
      r1.headers.getAll AUTHORIZATION = [[49]] ∧
      r2.headers.getAll AUTHORIZATION = [[50]] ∧
      (([49] : ByteStr) = [50] →
        r1.headers.getAll AUTHORIZATION = r2.headers.getAll AUTHORIZATION) :=
  ⟨rfl, rfl, by decide, by decide,
    C6_per_call_freshness tsEx [49] [50] reqEx reqEx 0 0 nextOk nextOk rfl rfl
      (by decide) (by decide)⟩

/-- C7: the middleware performs no validation beyond header-value
encodability: `next` receives a request exactly when every credential byte is
a legal header-value byte, and in that case — including the empty credential
and credentials without any scheme prefix — the Authorization header holds
the credential bytes unmodified. -/
theorem C7_no_extra_validation {Resp Ext : Type} (tok : ByteStr) (req : Request)
    (ctx : Ext) (next : Request → Ext → Except Error Resp × Ext) :
    ((handle (.ok tok) req ctx next).sentToNext ≠ none ↔
      tok.all HeaderValue.is_valid = true) ∧
    (tok.all HeaderValue.is_valid = true →
      ∃ req', (handle (.ok tok) req ctx next).sentToNext = some req' ∧
        req'.headers.getAll AUTHORIZATION = [tok]) := by
  by_cases hv : tok.all HeaderValue.is_valid = true
  · refine ⟨?_, ?_⟩
    · simp [handle, HeaderValue.from_str, hv]
    · intro _
      exact ⟨{ req with headers := req.headers.insert AUTHORIZATION tok },
        by simp [handle, HeaderValue.from_str, hv],
        getAll_insert_self req.headers AUTHORIZATION tok⟩
  · have hv' : tok.all HeaderValue.is_valid = false := by
      cases h : tok.all HeaderValue.is_valid
      · rfl
      · exact absurd h hv
    refine ⟨?_, ?_⟩
    · simp [handle, HeaderValue.from_str, hv']
    · intro hc
      exact absurd hc hv
/-- Witness for C7 at the empty credential string: it is encodable, is
applied unchanged, and becomes the sole Authorization value. -/
theorem C7_no_extra_validation_witness :
    ((handle (.ok ([] : ByteStr)) reqEx 0 nextOk).sentToNext ≠ none ↔
      ([] : ByteStr).all HeaderValue.is_valid = true) ∧
    (([] : ByteStr).all HeaderValue.is_valid = true →
      ∃ req', (handle (.ok ([] : ByteStr)) reqEx 0 nextOk).sentToNext = some req' ∧
        req'.headers.getAll AUTHORIZATION = [([] : ByteStr)]) :=
  C7_no_extra_validation [] reqEx 0 nextOk

/-- C8: on a successful apply step, the only change to the request handed to
`next` is its Authorization header — method, url, body, version and every
other header are unchanged — and the extensions side channel is forwarded to
`next` verbatim, its final value being whatever `next` made of it. -/
theorem C8_frame {Resp Ext : Type} (tok : ByteStr) (req : Request) (ctx : Ext)
    (next : Request → Ext → Except Error Resp × Ext)
    (hvalid : tok.all HeaderValue.is_valid = true) :
    ∃ req', (handle (.ok tok) req ctx next).sentToNext = some req' ∧
      req'.method = req.method ∧ req'.url = req.url ∧
      req'.body = req.body ∧ req'.version = req.version ∧
      (∀ k, k ≠ AUTHORIZATION → req'.headers.getAll k = req.headers.getAll k) ∧
      (handle (.ok tok) req ctx next).result = (next req' ctx).1 ∧
      (handle (.ok tok) req ctx next).extensions = (next req' ctx).2 := by
  refine ⟨{ req with headers := req.headers.insert AUTHORIZATION tok },
    ?_, rfl, rfl, rfl, rfl, ?_, ?_, ?_⟩
  · simp [handle, HeaderValue.from_str, hvalid]
  · intro k hk
    exact getAll_insert_other req.headers AUTHORIZATION k tok hk
  · simp [handle, HeaderValue.from_str, hvalid]
  · simp [handle, HeaderValue.from_str, hvalid]

/-- Witness for C8 at the token "A" on a request carrying an unrelated
"accept" header. -/
theorem C8_frame_witness :
    ([65] : ByteStr).all HeaderValue.is_valid = true ∧
    ∃ req', (handle (.ok [65]) reqEx 0 nextOk).sentToNext = some req' ∧
      req'.method = reqEx.method ∧ req'.url = reqEx.url ∧
      req'.body = reqEx.body ∧ req'.version = reqEx.version ∧
      (∀ k, k ≠ AUTHORIZATION → req'.headers.getAll k = reqEx.headers.getAll k) ∧
      (handle (.ok [65]) reqEx 0 nextOk).result = (nextOk req' 0).1 ∧
      (handle (.ok [65]) reqEx 0 nextOk).extensions = (nextOk req' 0).2 :=
  ⟨by decide, C8_frame [65] reqEx 0 nextOk (by decide)⟩

/-- C9: the two constructors — from a shared handle and from a uniquely
owned source moved into a shared handle — yield equal middleware values
holding the same underlying source, hence identical handle behaviour. -/
theorem C9_construction_equivalence {Resp Ext : Type} (ts : Nat → Except String ByteStr)
    (i : Nat) (req : Request) (ctx : Ext)
    (next : Request → Ext → Except Error Resp × Ext) :
    fromBox ts = fromArc ts ∧
    (fromBox ts).ts = ts ∧ (fromArc ts).ts = ts ∧
    (fromBox ts).handleCall i req ctx next = (fromArc ts).handleCall i req ctx next :=
  ⟨rfl, rfl, rfl, rfl⟩

/-- C10: on either locally detected failure the request leaves `handle`
exactly as it entered — in particular its header map, pre-existing
Authorization values included, is untouched — because the insertion runs
only after both the fetch and the encoding have succeeded. -/
theorem C10_error_atomicity {Resp Ext : Type} (msg : String) (tok : ByteStr)
    (req : Request) (ctx : Ext) (next next₂ : Request → Ext → Except Error Resp × Ext)
    (hbad : tok.all HeaderValue.is_valid = false) :
    ((handle (.error msg) req ctx next).reqFinal = req ∧
      (handle (.error msg) req ctx next).reqFinal.headers = req.headers) ∧
    ((handle (.ok tok) req ctx next₂).reqFinal = req ∧
      (handle (.ok tok) req ctx next₂).reqFinal.headers = req.headers) := by
  refine ⟨⟨rfl, rfl⟩, ?_, ?_⟩ <;> simp [handle, HeaderValue.from_str, hbad]

/-- Witness for C10 at a fetch failure "network down" and a credential
containing a raw newline, on a request with pre-existing Authorization
values. -/
theorem C10_error_atomicity_witness :
    ([10] : ByteStr).all HeaderValue.is_valid = false ∧
    (((@handle Nat Nat (.error "network down") reqEx 0 nextOk).reqFinal = reqEx ∧
      (@handle Nat Nat (.error "network down") reqEx 0 nextOk).reqFinal.headers =
        reqEx.headers) ∧
    ((@handle Nat Nat (.ok [10]) reqEx 0 nextErr).reqFinal = reqEx ∧
      (@handle Nat Nat (.ok [10]) reqEx 0 nextErr).reqFinal.headers = reqEx.headers)) :=
  ⟨by decide, C10_error_atomicity "network down" [10] reqEx 0 nextOk nextErr (by decide)⟩

end ReqwestAuth
